import Mathlib

/-!
Shallow embedding of the client-side authentication and session layer of the
job-board front-end: the persisted user store (src/unnamed/part_000), the
context-based auth provider and its storage-sync effect (src/unnamed/part_002),
the two session-verifier hooks (src/unnamed/part_003), the route guards
(src/unnamed/part_015, src/unnamed/part_016) and the header logout handler
(src/Frontend/src/components/layout/Header.tsx).

Network requests are modelled by an explicit outcome value handed to the
function that awaits them; local storage is an explicit field; React renders
are functions from the hook-provided booleans to a render/effect record.
-/

namespace JobPortal

/-- The role union type of the `User` interface. -/
inductive Role
  | employer
  | employee
  | both
  deriving DecidableEq, Repr

/-- The plan union type of the `User` interface. -/
inductive Plan
  | standard
  | premium
  deriving DecidableEq, Repr

/-- The `User` interface of src/unnamed/part_000 (identical in part_002):
optional TS fields become `Option`. -/
structure User where
  id : String
  email : String
  name : Option String
  avatar_url : Option String
  email_verified : Option Bool
  role : Role
  plan : Plan
  deriving DecidableEq, Repr

/-- The in-memory fields of the zustand store state (`UserState` in
src/unnamed/part_000): the current user and the `initialized` flag.
The function-valued fields of the TS interface are modelled below as
state transformers. -/
structure UserState where
  user : Option User
  initialized : Bool
  deriving DecidableEq, Repr

/-- The store's initial state: `user: null, initialized: false`. -/
def initialUserState : UserState := { user := none, initialized := false }

/-- Outcome of one `fetch(".../api/auth/me", credentials: "include")` round
trip as observed by the awaiting code: the response resolved with `res.ok`
and a parseable `User` body; resolved with `res.ok` but `res.json()` threw;
resolved with a non-success status; or the fetch itself rejected. -/
inductive MeOutcome
  | ok (data : User)
  | okBadJson
  | httpError
  | netError
  deriving DecidableEq, Repr

/-- Failure outcomes of the current-user request: everything except a
successful response with a parseable body. -/
def MeOutcome.isFailure : MeOutcome → Bool
  | .ok _ => false
  | .okBadJson => true
  | .httpError => true
  | .netError => true

/-- `setUser: (user) => set({ user })` — a partial `set`, merging into the
existing state, so `initialized` is untouched. -/
def setUser (s : UserState) (u : Option User) : UserState :=
  { s with user := u }

/-- `clearUser: () => set({ user: null })`. -/
def clearUser (s : UserState) : UserState :=
  { s with user := none }

/-- What one call of the store's `initialize` produced: the final state,
whether the network round trip was issued, and whether the call threw past
the store boundary. -/
structure InitResult where
  state : UserState
  networkCalled : Bool
  threw : Bool
  deriving DecidableEq, Repr

/-- The store's `initialize` (src/unnamed/part_000 lines 33-57).
If `get().user` is non-null, only `set({ initialized: true })` runs and no
fetch is issued. Otherwise one credentialed fetch is awaited: on
`res.ok` with a good body, `set({ user: data, initialized: true })`; on a
non-success status the `else` branch, and on a rejected fetch or a throwing
`res.json()` the `catch` branch, both `set({ user: null, initialized: true })`.
No branch rethrows. -/
def initializeStore (s : UserState) (o : MeOutcome) : InitResult :=
  match s.user with
  | some _ =>
      { state := { s with initialized := true }, networkCalled := false, threw := false }
  | none =>
      match o with
      | .ok data =>
          { state := { s with user := some data, initialized := true },
            networkCalled := true, threw := false }
      | .okBadJson =>
          { state := { s with user := none, initialized := true },
            networkCalled := true, threw := false }
      | .httpError =>
          { state := { s with user := none, initialized := true },
            networkCalled := true, threw := false }
      | .netError =>
          { state := { s with user := none, initialized := true },
            networkCalled := true, threw := false }

/-- The store's `fetchUser` (src/unnamed/part_000 lines 59-76): always one
round trip; `set({ user: data })` on success, `set({ user: null })` on a
non-success status or any thrown error. Only the `user` field is written. -/
def fetchUser (s : UserState) (o : MeOutcome) : UserState :=
  match o with
  | .ok data => { s with user := some data }
  | .okBadJson => { s with user := none }
  | .httpError => { s with user := none }
  | .netError => { s with user := none }

/-- A sequence of `initialize` calls, each with the outcome its fetch would
have had; returns the final state and whether any call issued the fetch. -/
def initializeSeq (s : UserState) (os : List MeOutcome) : UserState × Bool :=
  match os with
  | [] => (s, false)
  | o :: rest =>
      let r := initializeStore s o
      let t := initializeSeq r.state rest
      (t.1, r.networkCalled || t.2)

/-- One store operation, for quantifying over operation sequences. -/
inductive StoreOp
  | setUserOp (u : Option User)
  | clearUserOp
  | initializeOp (o : MeOutcome)
  | fetchUserOp (o : MeOutcome)
  deriving DecidableEq, Repr

/-- Whether the operation is an `initialize` call. -/
def StoreOp.isInitializeOp : StoreOp → Bool
  | .initializeOp _ => true
  | .setUserOp _ => false
  | .clearUserOp => false
  | .fetchUserOp _ => false

/-- Apply one store operation to the state. -/
def applyOp (s : UserState) (op : StoreOp) : UserState :=
  match op with
  | .setUserOp u => setUser s u
  | .clearUserOp => clearUser s
  | .initializeOp o => (initializeStore s o).state
  | .fetchUserOp o => fetchUser s o

/-- Apply a sequence of store operations left to right. -/
def applyOps (s : UserState) (ops : List StoreOp) : UserState :=
  ops.foldl applyOp s

/-- The shape `partialize` projects the state to before persisting
(src/unnamed/part_000 lines 78-82): only the `user` field. -/
structure PersistedState where
  user : Option User
  deriving DecidableEq, Repr

/-- `partialize: (state) => ({ user: state.user })`. -/
def partialize (s : UserState) : PersistedState :=
  { user := s.user }

/-- The key-value entries of the serialized persisted object for a store
state: exactly the one `user` entry that `partialize` emits. -/
def persistedEntries (s : UserState) : List (String × Option User) :=
  [("user", (partialize s).user)]

/-- Rehydration after a restart: the persisted partial object is merged over
the store's initial state, so every field `partialize` dropped — in
particular `initialized` — restarts at its initial value. -/
def rehydrate (p : PersistedState) : UserState :=
  { initialUserState with user := p.user }

/-- The store state together with its local-storage slot: the value at the
`"user-storage"` key configured in src/unnamed/part_000 lines 78-82
(`none` = key absent). -/
structure StoreWithStorage where
  state : UserState
  userStorageKey : Option PersistedState
  deriving DecidableEq, Repr

/-- One store mutation observed through the persist middleware (the
third-party `zustand/middleware` the store is wrapped in, src/unnamed/
part_000 lines 23-83): after every `set`, the middleware writes the
partialized state under the configured key. It rewrites the key on every
write — also when the user is null — and never removes it. -/
def applyOpPersisted (w : StoreWithStorage) (op : StoreOp) : StoreWithStorage :=
  let s := applyOp w.state op
  { state := s, userStorageKey := some (partialize s) }

/-- `isLoggedIn` as derived in the store-integrated `useVerifySession`
(src/unnamed/part_003 lines 107-108): `!!user`. -/
def isLoggedIn (s : UserState) : Bool :=
  s.user.isSome

/-- `isLoading` as derived in the store-integrated `useVerifySession`:
`!initialized`. -/
def isLoading (s : UserState) : Bool :=
  !s.initialized

/-- Model of `JSON.stringify` on an optional string field. -/
def serializeOptStr : Option String → String
  | some s => "\x22" ++ s ++ "\x22"
  | none => "null"

/-- Model of `JSON.stringify` on an optional boolean field. -/
def serializeOptBool : Option Bool → String
  | some true => "true"
  | some false => "false"
  | none => "null"

/-- The literal of a `Role` value. -/
def Role.asString : Role → String
  | .employer => "employer"
  | .employee => "employee"
  | .both => "both"

/-- The literal of a `Plan` value. -/
def Plan.asString : Plan → String
  | .standard => "standard"
  | .premium => "premium"

/-- Model of `JSON.stringify(user)`: the serialized field values in interface
order. -/
def serializeUser (u : User) : String :=
  String.intercalate ","
    [serializeOptStr (some u.id), serializeOptStr (some u.email),
     serializeOptStr u.name, serializeOptStr u.avatar_url,
     serializeOptBool u.email_verified,
     serializeOptStr (some u.role.asString), serializeOptStr (some u.plan.asString)]

/-- The auth provider's client-visible state (src/unnamed/part_002): the
React `user` state together with the value of the local-storage `user` key
(`none` = key absent). -/
structure PersistentAuthState where
  user : Option User
  storedUser : Option String
  deriving DecidableEq, Repr

/-- The storage-sync effect of the auth provider (src/unnamed/part_002
lines 63-69): a non-null user is written under the `user` key as its
serialization, a null user removes the key. -/
def syncUserKey : Option User → Option String
  | some u => some (serializeUser u)
  | none => none

/-- `setUser` as observed through the provider: the state update followed by
the storage-sync effect keyed on the new `user` value. -/
def authSetUser (s : PersistentAuthState) (u : Option User) : PersistentAuthState :=
  { s with user := u, storedUser := syncUserKey u }

/-- What a guard render returns to React. -/
inductive Render
  | loading
  | nothing
  | children
  deriving DecidableEq, Repr

/-- One guard render: what was rendered, whether `navigate("/")` was called,
and whether the access-denied toast was shown during it. -/
structure GuardResult where
  render : Render
  navigatedRoot : Bool
  toastShown : Bool
  deriving DecidableEq, Repr

/-- The `Protected` component (src/unnamed/part_015 lines 10-35) as a
function of the hook booleans. When `isLoading`, the spinner. When
`!isLoggedIn`, `navigate("/")` is called, but the branch has no early
return, so control falls through to `return <>{children}</>` — the source
renders the children in that case too. -/
def protectedGuard (loading loggedIn : Bool) : GuardResult :=
  if loading then
    { render := .loading, navigatedRoot := false, toastShown := false }
  else if !loggedIn then
    { render := .children, navigatedRoot := true, toastShown := false }
  else
    { render := .children, navigatedRoot := false, toastShown := false }

/-- The `ProtectedRole` component (src/unnamed/part_016; both copies branch
identically). When `isLoading`, the spinner. When `!isLoggedIn`,
`navigate("/")` and `null`. When `user?.role !== requiredRole` (an absent
user compares unequal to any role), the access-denied toast, `navigate("/")`
and `null`. Otherwise the children. -/
def protectedRoleGuard (loading loggedIn : Bool) (user : Option User)
    (requiredRole : Role) : GuardResult :=
  if loading then
    { render := .loading, navigatedRoot := false, toastShown := false }
  else if !loggedIn then
    { render := .nothing, navigatedRoot := true, toastShown := false }
  else if user.map User.role ≠ some requiredRole then
    { render := .nothing, navigatedRoot := true, toastShown := true }
  else
    { render := .children, navigatedRoot := false, toastShown := false }

/-- Outcome of the verify request (`GET /api/auth/get-current-user`) as seen
by the awaiting code: resolved with `response.ok`, resolved with a
non-success status, or rejected. -/
inductive VerifyOutcome
  | ok
  | httpError
  | netError
  deriving DecidableEq, Repr

/-- The side effects one run of the store-integrated verifier handler
performed: whether `fetchUser()` was called, whether
`useUserStore.getState().clearUser()` was called, and whether
`navigate("/")` was called. -/
structure VerifyActions where
  fetchUserCalled : Bool
  clearedUser : Bool
  navigatedRoot : Bool
  deriving DecidableEq, Repr

/-- No effect was performed. -/
def noVerifyActions : VerifyActions :=
  { fetchUserCalled := false, clearedUser := false, navigatedRoot := false }

/-- The store-integrated `useVerifySession` handler (src/unnamed/part_003
lines 65-113), from the point its verify request settles. `mounted` is the
value of the effect's `isMounted` flag at that moment. When the request
resolved, `if (!isMounted) return;` runs before the status check; then on
`response.ok` the handler awaits `fetchUser()` (whose own round trip has
outcome `mo`), else it clears the store user and navigates to the root.
When the request rejected, the catch checks `isMounted` again, then clears
and navigates. -/
def runVerifySession (mounted : Bool) (o : VerifyOutcome) (s : UserState)
    (mo : MeOutcome) : UserState × VerifyActions :=
  match o with
  | .ok =>
      if mounted then
        (fetchUser s mo,
         { fetchUserCalled := true, clearedUser := false, navigatedRoot := false })
      else (s, noVerifyActions)
  | .httpError =>
      if mounted then
        (clearUser s,
         { fetchUserCalled := false, clearedUser := true, navigatedRoot := true })
      else (s, noVerifyActions)
  | .netError =>
      if mounted then
        (clearUser s,
         { fetchUserCalled := false, clearedUser := true, navigatedRoot := true })
      else (s, noVerifyActions)

/-- The state writes and navigation of one run of the axios-based
`useVerifySession` handler (src/unnamed/part_003 lines 129-162):
which value, if any, was written to `isLoggedIn` and `isLoading`, and
whether `navigate("/")` was called. -/
structure AxiosVerifyActions where
  wroteIsLoggedIn : Option Bool
  wroteIsLoading : Option Bool
  navigatedRoot : Bool
  deriving DecidableEq, Repr

/-- The axios-based `useVerifySession` handler from the point its request
settles. The source tracks no mounted flag, so `mounted` — whether the
component is still mounted at that moment — is never consulted. On status
200, `setIsLoggedIn(true)`; on any other status the handler throws into its
own catch, and on a rejected request it lands there directly:
`setIsLoggedIn(false); navigate("/")`. The `finally` always runs
`setIsLoading(false)`. -/
def axiosVerifySession (_mounted : Bool) (o : VerifyOutcome) : AxiosVerifyActions :=
  match o with
  | .ok =>
      { wroteIsLoggedIn := some true, wroteIsLoading := some false,
        navigatedRoot := false }
  | .httpError =>
      { wroteIsLoggedIn := some false, wroteIsLoading := some false,
        navigatedRoot := true }
  | .netError =>
      { wroteIsLoggedIn := some false, wroteIsLoading := some false,
        navigatedRoot := true }

/-- Outcome of the `POST /api/auth/logout` request made by the header's
logout handler. -/
inductive LogoutOutcome
  | ok
  | httpError
  | netError
  deriving DecidableEq, Repr

/-- The effects of one `handleLogout` run besides the state change: whether
the catch logged an error, whether `localStorage.removeItem("user")` ran,
whether `navigate("/login")` ran, and whether the handler threw. -/
structure LogoutEffects where
  loggedError : Bool
  removedStoredUser : Bool
  navigatedLogin : Bool
  threw : Bool
  deriving DecidableEq, Repr

/-- `handleLogout` (src/Frontend/src/components/layout/Header.tsx
lines 18-39). The awaited axios POST rejects on a non-2xx status or a
network failure; the catch only logs. The `finally` block always runs:
`localStorage.removeItem("user")`, `setUser(null)` (whose sync effect also
removes the key), then `navigate("/login")`. Nothing rethrows. -/
def handleLogout (s : PersistentAuthState) (o : LogoutOutcome) :
    PersistentAuthState × LogoutEffects :=
  let caught :=
    match o with
    | .ok => false
    | .httpError => true
    | .netError => true
  (authSetUser s none,
   { loggedError := caught, removedStoredUser := true,
     navigatedLogin := true, threw := false })

/-- A concrete user record for witnesses. -/
def sampleUser : User :=
  { id := "u1", email := "emp@example.com", name := some "Emp",
    avatar_url := none, email_verified := some true,
    role := .employee, plan := .standard }

/-- A concrete user whose role is `employer`, for the role-guard witness. -/
def employerUser : User :=
  { id := "u2", email := "boss@example.com", name := some "Boss",
    avatar_url := none, email_verified := some true,
    role := .employer, plan := .premium }

/-- A store state pre-hydrated with `sampleUser`, not yet marked
initialized. -/
def sampleHydrated : UserState :=
  { user := some sampleUser, initialized := false }

/-- With a user already present, one `initialize` call only marks the store
initialized: no fetch, no other change, nothing thrown. -/
theorem initializeStore_of_some (s : UserState) (u : User) (o : MeOutcome)
    (h : s.user = some u) :
    initializeStore s o =
      { state := { s with initialized := true }, networkCalled := false,
        threw := false } := by
  simp [initializeStore, h]

/-- Unfolding one call of a sequence of `initialize` calls. -/
theorem initializeSeq_cons (s : UserState) (o : MeOutcome) (os : List MeOutcome) :
    initializeSeq s (o :: os) =
      ((initializeSeq (initializeStore s o).state os).1,
       (initializeStore s o).networkCalled ||
         (initializeSeq (initializeStore s o).state os).2) := rfl

/-- A nonempty sequence of `initialize` calls from a state with a user
present ends at the same state with `initialized := true` and issues no
fetch. -/
theorem initializeSeq_of_some (u : User) (os : List MeOutcome) :
    ∀ s : UserState, s.user = some u → os ≠ [] →
      initializeSeq s os = ({ s with initialized := true }, false) := by
  induction os with
  | nil =>
      intro s _ hne
      exact absurd rfl hne
  | cons o rest ih =>
      intro s hu _
      have hstep := initializeStore_of_some s u o hu
      have ht : initializeSeq { s with initialized := true } rest =
          ({ s with initialized := true }, false) := by
        cases rest with
        | nil => rfl
        | cons o2 r2 =>
            have h' : ({ s with initialized := true } : UserState).user = some u := hu
            exact ih { s with initialized := true } h' (by simp)
      rw [initializeSeq_cons, hstep]
      simp [ht]

/-- Claim C1 (code bug): with verification settled (`isLoading = false`) and
the verifier reporting logged-out (`isLoggedIn = false`), the `Protected`
guard calls `navigate("/")` but still renders its children — the source has
no early return on the auth-failed branch, contradicting the claim that the
guard renders nothing. -/
theorem c1_protected_renders_children_when_logged_out :
    (protectedGuard false false).render = Render.children ∧
      (protectedGuard false false).navigatedRoot = true :=
  ⟨rfl, rfl⟩

/-- Counterexample to C2 as stated: the store's `clearUser` does not remove
the persisted key. From a store holding a user with its persisted copy,
`clearUser` goes through the persist middleware, which rewrites the
`"user-storage"` key with a null user — the key is still present. -/
theorem c2_counterexample :
    ¬ ((applyOpPersisted
          { state := sampleHydrated,
            userStorageKey := some (partialize sampleHydrated) }
          StoreOp.clearUserOp).userStorageKey = none) := by
  simp [applyOpPersisted]

/-- Claim C2 (amended): setting a non-null user leaves the persisted copy
holding that user's record — the store's key holds the partialized state
with that user, the provider's key that user's serialization. The store's
`setUser(null)` and `clearUser` do not remove the store's persisted key: the
middleware rewrites it with a null user. Only the provider's `setUser(null)`
removes its own key. -/
theorem c2_set_and_clear_persistence (w : StoreWithStorage)
    (s : PersistentAuthState) (u : User) :
    (applyOpPersisted w (StoreOp.setUserOp (some u))).userStorageKey =
        some { user := some u } ∧
      (applyOpPersisted w (StoreOp.setUserOp none)).userStorageKey =
        some { user := none } ∧
      (applyOpPersisted w StoreOp.clearUserOp).userStorageKey =
        some { user := none } ∧
      (applyOpPersisted w StoreOp.clearUserOp).userStorageKey ≠ none ∧
      (authSetUser s (some u)).storedUser = some (serializeUser u) ∧
      (authSetUser s none).storedUser = none :=
  ⟨rfl, rfl, rfl, Option.some_ne_none _, rfl, rfl⟩

/-- Claim C3: from a state whose user is pre-hydrated, any nonempty sequence
of `initialize` calls issues no network request, leaves the stored user
unchanged and ends with `initialized = true`. -/
theorem c3_hydrated_initialize_no_network (u : User) (s : UserState)
    (os : List MeOutcome) (hu : s.user = some u) (hne : os ≠ []) :
    (initializeSeq s os).2 = false ∧
      (initializeSeq s os).1.user = some u ∧
      (initializeSeq s os).1.initialized = true := by
  rw [initializeSeq_of_some u os s hu hne]
  exact ⟨rfl, hu, rfl⟩

/-- Witness for C3 at a concrete pre-hydrated state and a one-call
sequence. -/
theorem c3_witness :
    sampleHydrated.user = some sampleUser ∧
      ([MeOutcome.netError] ≠ ([] : List MeOutcome)) ∧
      ((initializeSeq sampleHydrated [MeOutcome.netError]).2 = false ∧
       (initializeSeq sampleHydrated [MeOutcome.netError]).1.user = some sampleUser ∧
       (initializeSeq sampleHydrated [MeOutcome.netError]).1.initialized = true) :=
  ⟨rfl, by simp,
   c3_hydrated_initialize_no_network sampleUser sampleHydrated
     [MeOutcome.netError] rfl (by simp)⟩

/-- Claim C4: on every failure outcome of the current-user request — bad
body, non-success status, or rejected fetch — `initialize` does not throw
and ends with `user = null` and `initialized = true`. -/
theorem c4_initialize_failure_outcomes (s : UserState) (o : MeOutcome)
    (hu : s.user = none) (hf : o.isFailure = true) :
    (initializeStore s o).threw = false ∧
      (initializeStore s o).state.user = none ∧
      (initializeStore s o).state.initialized = true := by
  cases o <;> simp_all [initializeStore, MeOutcome.isFailure]

/-- Witness for C4 at the empty initial state and a rejected fetch. -/
theorem c4_witness :
    initialUserState.user = none ∧
      MeOutcome.netError.isFailure = true ∧
      ((initializeStore initialUserState MeOutcome.netError).threw = false ∧
       (initializeStore initialUserState MeOutcome.netError).state.user = none ∧
       (initializeStore initialUserState MeOutcome.netError).state.initialized = true) :=
  ⟨rfl, rfl, c4_initialize_failure_outcomes initialUserState MeOutcome.netError rfl rfl⟩

/-- Claim C5: once settled and logged in, the role guard with
`requiredRole = "both"` renders its children exactly when the user's role is
`both`; on any other role it shows the denial toast, renders nothing and
navigates — unlike the plain not-logged-in branch, which navigates without a
toast. -/
theorem c5_role_guard_both (u : User) :
    ((protectedRoleGuard false true (some u) Role.both).render = Render.children ↔
        u.role = Role.both) ∧
      (u.role ≠ Role.both →
        protectedRoleGuard false true (some u) Role.both =
          { render := Render.nothing, navigatedRoot := true, toastShown := true }) ∧
      protectedRoleGuard false false none Role.both =
        { render := Render.nothing, navigatedRoot := true, toastShown := false } := by
  cases hu : u.role <;> simp [protectedRoleGuard, hu]

/-- Witness for C5 at a concrete user whose role is `employer`. -/
theorem c5_witness :
    employerUser.role ≠ Role.both ∧
      protectedRoleGuard false true (some employerUser) Role.both =
        { render := Render.nothing, navigatedRoot := true, toastShown := true } :=
  ⟨by decide, (c5_role_guard_both employerUser).2.1 (by decide)⟩

/-- Claim C6: while mounted, a successful verify response triggers a
`fetchUser` that refreshes the stored user, and every non-success status or
thrown error clears the store's user and navigates to the root route. -/
theorem c6_verifier_settles (s : UserState) (u : User) (mo : MeOutcome) :
    (runVerifySession true VerifyOutcome.ok s mo).2.fetchUserCalled = true ∧
      (runVerifySession true VerifyOutcome.ok s mo).1 = fetchUser s mo ∧
      (runVerifySession true VerifyOutcome.ok s (MeOutcome.ok u)).1.user = some u ∧
      (∀ o : VerifyOutcome, o ≠ VerifyOutcome.ok →
        (runVerifySession true o s mo).1.user = none ∧
        (runVerifySession true o s mo).2.clearedUser = true ∧
        (runVerifySession true o s mo).2.navigatedRoot = true) := by
  refine ⟨rfl, rfl, rfl, ?_⟩
  intro o ho
  cases o with
  | ok => exact absurd rfl ho
  | httpError => exact ⟨rfl, rfl, rfl⟩
  | netError => exact ⟨rfl, rfl, rfl⟩

/-- Witness for C6 at a non-success verify outcome. -/
theorem c6_witness :
    VerifyOutcome.httpError ≠ VerifyOutcome.ok ∧
      ((runVerifySession true VerifyOutcome.httpError initialUserState
          MeOutcome.netError).1.user = none ∧
       (runVerifySession true VerifyOutcome.httpError initialUserState
          MeOutcome.netError).2.clearedUser = true ∧
       (runVerifySession true VerifyOutcome.httpError initialUserState
          MeOutcome.netError).2.navigatedRoot = true) :=
  ⟨by decide,
   (c6_verifier_settles initialUserState sampleUser MeOutcome.netError).2.2.2
     VerifyOutcome.httpError (by decide)⟩

/-- Claim C7 (amended): when the verify request settles after unmount, the
store-integrated verifier — the one tracking an `isMounted` flag — performs
no store write, no `fetchUser`, no `clearUser` and no navigation, and leaves
the store state unchanged. -/
theorem c7_guarded_verifier_silent_after_unmount (o : VerifyOutcome)
    (s : UserState) (mo : MeOutcome) :
    runVerifySession false o s mo = (s, noVerifyActions) := by
  cases o <;> rfl

/-- Counterexample to C7 as stated: the repository's axios-based verifier
tracks no mounted flag, so when its request settles with a failure after the
component has unmounted it still writes `isLoggedIn` and `isLoading` and
still navigates — it is not the case that no state write and no navigation
happen. -/
theorem c7_counterexample :
    ¬ ((axiosVerifySession false VerifyOutcome.httpError).wroteIsLoggedIn = none ∧
       (axiosVerifySession false VerifyOutcome.httpError).wroteIsLoading = none ∧
       (axiosVerifySession false VerifyOutcome.httpError).navigatedRoot = false) := by
  decide

/-- Claim C8: after every sequence of store operations the persisted object
holds exactly the `user` entry and never an `initialized` entry, and
rehydrating after a restart restores the user while `initialized` restarts
false. -/
theorem c8_persist_only_user (ops : List StoreOp) (s : UserState) :
    (persistedEntries (applyOps initialUserState ops)).map Prod.fst = ["user"] ∧
      "initialized" ∉ (persistedEntries (applyOps initialUserState ops)).map Prod.fst ∧
      (rehydrate (partialize s)).initialized = false ∧
      (rehydrate (partialize s)).user = s.user := by
  refine ⟨rfl, ?_, rfl, rfl⟩
  simp [persistedEntries]

/-- Claim C9: whatever the logout request's outcome, `handleLogout`
completes without throwing: the persisted user key is removed, the in-memory
user becomes null and the client navigates to the login page. -/
theorem c9_logout_always_completes (s : PersistentAuthState) (o : LogoutOutcome) :
    (handleLogout s o).1.user = none ∧
      (handleLogout s o).1.storedUser = none ∧
      (handleLogout s o).2.removedStoredUser = true ∧
      (handleLogout s o).2.navigatedLogin = true ∧
      (handleLogout s o).2.threw = false := by
  cases o <;> exact ⟨rfl, rfl, rfl, rfl, rfl⟩

/-- Claim C10: `setUser`, `clearUser` and `fetchUser` never modify the
`initialized` flag; every store operation other than an `initialize` call
preserves it; and a `fetchUser` run before any `initialize` leaves the store
still reporting loading. -/
theorem c10_initialized_frame (s : UserState) (u : Option User) (o : MeOutcome)
    (op : StoreOp) :
    (setUser s u).initialized = s.initialized ∧
      (clearUser s).initialized = s.initialized ∧
      (fetchUser s o).initialized = s.initialized ∧
      (op.isInitializeOp = false → (applyOp s op).initialized = s.initialized) ∧
      isLoading (fetchUser initialUserState o) = true := by
  refine ⟨rfl, rfl, ?_, ?_, ?_⟩
  · cases o <;> rfl
  · intro hop
    cases op with
    | setUserOp v => rfl
    | clearUserOp => rfl
    | initializeOp o2 => simp [StoreOp.isInitializeOp] at hop
    | fetchUserOp o2 => cases o2 <;> rfl
  · cases o <;> rfl

/-- Witness for C10 at a concrete non-initialize operation. -/
theorem c10_witness :
    StoreOp.clearUserOp.isInitializeOp = false ∧
      (applyOp initialUserState StoreOp.clearUserOp).initialized =
        initialUserState.initialized ∧
      isLoading (fetchUser initialUserState MeOutcome.httpError) = true :=
  ⟨rfl,
   (c10_initialized_frame initialUserState none MeOutcome.httpError
      StoreOp.clearUserOp).2.2.2.1 rfl,
   (c10_initialized_frame initialUserState none MeOutcome.httpError
      StoreOp.clearUserOp).2.2.2.2⟩

end JobPortal
